import Mathlib

/-
Verification of the flappy_wolf game core (src/flappywolf.py).

Shallow embedding notes:
- All pixel coordinates and timestamps in the source are Python ints; they are
  modelled as Int.
- The character velocity is a Python float, but every value it ever takes is an
  exact multiple of 0.5 (it starts at 0, gravity adds 0.5, a jump sets it to
  -10, a reset sets it to 0, and the clamp bounds it by the integer 8), so it
  is modelled exactly by `vh : Int`, twice the velocity ("velocity in halves").
  GRAVITY = 0.5 becomes 1, MAX_FALL_SPEED = 8 becomes 16, JUMP_STRENGTH = -10
  becomes -20, and the Python truncation int(velocity) becomes Int.tdiv vh 2
  (both truncate toward zero); Python floor division // becomes Int.ediv.
- pygame rects are modelled by their left/top/width/height integers; derived
  edges (right, bottom, centerx) follow pygame's formulas.
- The pixel-mask collision test (pygame.sprite.collide_mask) depends on image
  data and is modelled as an injected oracle `collide : Wolf -> PipeS -> Bool`.
- Sprite rotation, image/mask recomputation and all drawing are render-only
  and are not modelled; audio playback is modelled only through the two
  booleans the AudioManager keeps (music_playing, music_paused).
- The random source (random.randint(-100, 100)) is injected as an explicit
  offset argument, as are pygame's clock (now), the mouse state and the
  restart-button result.
-/

namespace FlappyWolf

/-- GameState enum from the source. -/
inductive GameState where
  | MENU
  | PLAYING
  | GAME_OVER
deriving DecidableEq, Repr

-- Config constants from the source (velocity-valued ones are doubled, see header).
def SCREEN_WIDTH : Int := 864
def SCREEN_HEIGHT : Int := 936
def GRAVITY_HALVES : Int := 1
def MAX_FALL_SPEED_HALVES : Int := 16
def JUMP_STRENGTH_HALVES : Int := -20
def SCROLL_SPEED : Int := 4
def PIPE_GAP : Int := 150
def PIPE_FREQUENCY : Int := 1500
def GROUND_HEIGHT : Int := 168
def FLAP_COOLDOWN : Nat := 5

/-- The y coordinate of the ground line, SCREEN_HEIGHT - GROUND_HEIGHT = 768. -/
def groundLine : Int := SCREEN_HEIGHT - GROUND_HEIGHT

/-- Kinematic state of the Wolf sprite.  `y` is rect.y (the top edge),
`height` is the rect height, `vh` is twice the float velocity. -/
structure Wolf where
  centerx : Int
  y : Int
  height : Int
  vh : Int
  is_clicked : Bool
  image_index : Nat
  animation_counter : Nat
deriving DecidableEq, Repr

def Wolf.top (w : Wolf) : Int := w.y

def Wolf.bottom (w : Wolf) : Int := w.y + w.height

/-- Wolf._apply_physics: gravity, clamp, and move only when above the ground. -/
def applyPhysics (w : Wolf) : Wolf :=
  let vh := min (w.vh + GRAVITY_HALVES) MAX_FALL_SPEED_HALVES
  if w.y + w.height < groundLine then
    { w with vh := vh, y := w.y + Int.tdiv vh 2 }
  else
    { w with vh := vh }

/-- Wolf._handle_input: jump on the rising edge of the mouse button. -/
def handleInput (pressed : Bool) (w : Wolf) : Wolf × Bool :=
  if pressed && !w.is_clicked then
    ({ w with is_clicked := true, vh := JUMP_STRENGTH_HALVES }, true)
  else if !pressed then
    ({ w with is_clicked := false }, false)
  else
    (w, false)

/-- Wolf._animate: cyclic frame counter over the 3 wolf frames. -/
def animate (w : Wolf) : Wolf :=
  let c := w.animation_counter + 1
  if FLAP_COOLDOWN < c then
    { w with animation_counter := 0, image_index := (w.image_index + 1) % 3 }
  else
    { w with animation_counter := c }

/-- Wolf.update: physics, input and animation while PLAYING; the GAME_OVER
branch only re-renders the sprite pointing down (render-only, kinematic state
unchanged); returns whether a jump occurred. -/
def wolfUpdate (state : GameState) (pressed : Bool) (w : Wolf) : Wolf × Bool :=
  match state with
  | .PLAYING =>
    let w1 := applyPhysics w
    let p := handleInput pressed w1
    (animate p.1, p.2)
  | _ => (w, false)

/-- Wolf.reset(x, y) with the spawn arguments (100, SCREEN_HEIGHT // 2):
pygame center assignment puts rect.y at centery - height // 2. -/
def spawnWolf (h : Int) : Wolf :=
  { centerx := 100
    y := Int.ediv SCREEN_HEIGHT 2 - Int.ediv h 2
    height := h
    vh := 0
    is_clicked := false
    image_index := 0
    animation_counter := 0 }

/-- State of one Pipe sprite: rect left/top/width/height plus the scored flag. -/
structure PipeS where
  x : Int
  top : Int
  w : Int
  h : Int
  scored : Bool
deriving DecidableEq, Repr

def PipeS.left (p : PipeS) : Int := p.x

def PipeS.right (p : PipeS) : Int := p.x + p.w

def PipeS.bottom (p : PipeS) : Int := p.top + p.h

def PipeS.centerx (p : PipeS) : Int := p.x + Int.ediv p.w 2

/-- Pipe.__init__: position 1 anchors the (flipped) image by bottomleft at
(x, y - PIPE_GAP // 2); any other position anchors by topleft at
(x, y + PIPE_GAP // 2).  pw, ph are the pipe image dimensions. -/
def mkPipe (x y : Int) (position : Int) (pw ph : Int) : PipeS :=
  if position = 1 then
    { x := x, top := y - Int.ediv PIPE_GAP 2 - ph, w := pw, h := ph, scored := false }
  else
    { x := x, top := y + Int.ediv PIPE_GAP 2, w := pw, h := ph, scored := false }

/-- Pipe.update over the whole group: each pipe moves left by SCROLL_SPEED and
kills itself when its right edge is < 0. -/
def movePipes (pipes : List PipeS) : List PipeS :=
  (pipes.map (fun p => { p with x := p.x - SCROLL_SPEED })).filter
    (fun p => decide (0 ≤ p.right))

/-- Full game state: the Game fields the claims are about, including the two
AudioManager booleans. -/
structure Game where
  state : GameState
  score : Nat
  ground_scroll : Int
  last_pipe_time : Int
  pipes : List PipeS
  wolf : Wolf
  pipe_passed : Bool
  music_playing : Bool
  music_paused : Bool
deriving DecidableEq, Repr

/-- AudioManager.start_music flag handling. -/
def startMusic (g : Game) : Game :=
  if ¬ g.music_playing ∧ ¬ g.music_paused then { g with music_playing := true }
  else if g.music_paused then { g with music_paused := false }
  else g

/-- AudioManager.stop_music_with_effect flag handling. -/
def stopMusic (g : Game) : Game :=
  if g.music_playing then { g with music_playing := false, music_paused := false }
  else g

/-- Game.handle_events: a MOUSEBUTTONDOWN event while in MENU starts play and
primes the spawner clock to now - PIPE_FREQUENCY. -/
def handleEvents (mouseDown : Bool) (now : Int) (g : Game) : Game :=
  if mouseDown = true ∧ g.state = GameState.MENU then
    startMusic { g with state := GameState.PLAYING, last_pipe_time := now - PIPE_FREQUENCY }
  else g

/-- The pair center y picked by Game._generate_pipes: SCREEN_HEIGHT // 2 plus
the random offset (random.randint(-100, 100), injected here). -/
def spawnCenterY (off : Int) : Int := Int.ediv SCREEN_HEIGHT 2 + off

/-- The top pipe created by a spawn. -/
def spawnTopPipe (off pw ph : Int) : PipeS := mkPipe SCREEN_WIDTH (spawnCenterY off) 1 pw ph

/-- The bottom pipe created by a spawn. -/
def spawnBottomPipe (off pw ph : Int) : PipeS := mkPipe SCREEN_WIDTH (spawnCenterY off) (-1) pw ph

/-- Game._generate_pipes: spawn a pair when more than PIPE_FREQUENCY ms have
passed since last_pipe_time, then record the current time. -/
def generatePipes (now off pw ph : Int) (g : Game) : Game :=
  if PIPE_FREQUENCY < now - g.last_pipe_time then
    { g with pipes := g.pipes ++ [spawnTopPipe off pw ph, spawnBottomPipe off pw ph]
             last_pipe_time := now }
  else g

/-- Game._update_ground_scroll. -/
def updateGroundScroll (g : Game) : Game :=
  let s := g.ground_scroll - SCROLL_SPEED
  if 35 < s.natAbs then { g with ground_scroll := 0 }
  else { g with ground_scroll := s }

/-- Game._check_collisions: mask overlap with any pipe, or the screen
boundaries, flips the state to GAME_OVER and stops the music. -/
def checkCollisions (collide : Wolf → PipeS → Bool) (g : Game) : Game :=
  if g.pipes.any (fun p => collide g.wolf p) then
    stopMusic { g with state := GameState.GAME_OVER }
  else if g.wolf.y < 0 ∨ groundLine ≤ g.wolf.y + g.wolf.height then
    stopMusic { g with state := GameState.GAME_OVER }
  else g

/-- min(self.pipe_group, key=centerx): Python min keeps the earliest element
among ties, as this fold does. -/
def minByCenterx (pipes : List PipeS) : Option PipeS :=
  pipes.foldl
    (fun acc p =>
      match acc with
      | none => some p
      | some q => if p.centerx < q.centerx then some p else some q)
    none

/-- The marking loop of Game._update_score: every pipe whose centerx is within
10 pixels of c gets its scored flag set. -/
def markScored (c : Int) (pipes : List PipeS) : List PipeS :=
  pipes.map (fun p => if (p.centerx - c).natAbs < 10 then { p with scored := true } else p)

/-- Game._update_score, translated statement by statement. -/
def updateScore (g : Game) : Game :=
  match minByCenterx g.pipes with
  | none => g
  | some first =>
    let wx := g.wolf.centerx
    let passed : Bool :=
      if first.left < wx ∧ wx < first.right ∧ g.pipe_passed = false then true
      else g.pipe_passed
    if passed = true ∧ first.right < wx then
      if first.scored = false then
        { g with score := g.score + 1
                 pipes := markScored first.centerx g.pipes
                 pipe_passed := false }
      else
        { g with pipe_passed := false }
    else
      { g with pipe_passed := passed }

/-- The part of Game._update_playing that runs before the collision check:
character update, pipe movement, spawning, ground scroll. -/
def prePhase (pressed : Bool) (now off pw ph : Int) (g : Game) : Game :=
  let w := (wolfUpdate g.state pressed g.wolf).1
  updateGroundScroll
    (generatePipes now off pw ph { g with wolf := w, pipes := movePipes g.pipes })

/-- Game._update_playing: the pre-phase, then _check_collisions, then
_update_score, in the source order, with no early exit in between. -/
def updatePlaying (pressed : Bool) (now off pw ph : Int)
    (collide : Wolf → PipeS → Bool) (g : Game) : Game :=
  updateScore (checkCollisions collide (prePhase pressed now off pw ph g))

/-- Game._reset_game together with Wolf.reset(100, SCREEN_HEIGHT // 2);
last_pipe_time is not touched by the source reset. -/
def resetGame (g : Game) : Game :=
  { g with state := GameState.MENU
           score := 0
           ground_scroll := 0
           pipe_passed := false
           pipes := []
           wolf := { g.wolf with centerx := 100
                                 y := Int.ediv SCREEN_HEIGHT 2 - Int.ediv g.wolf.height 2
                                 vh := 0
                                 is_clicked := false
                                 image_index := 0
                                 animation_counter := 0 }
           music_playing := false
           music_paused := false }

/-- Game._update_game_over: the wolf only re-renders pointing down
(render-only); a restart click resets the game. -/
def updateGameOver (restartClicked : Bool) (g : Game) : Game :=
  if restartClicked then resetGame g else g

/-- Game.update: dispatch on the current state; MENU does nothing. -/
def gameUpdate (pressed restartClicked : Bool) (now off pw ph : Int)
    (collide : Wolf → PipeS → Bool) (g : Game) : Game :=
  match g.state with
  | .MENU => g
  | .PLAYING => updatePlaying pressed now off pw ph collide g
  | .GAME_OVER => updateGameOver restartClicked g

/-- One loop iteration: handle_events then update. -/
def gameTick (mouseDown pressed restartClicked : Bool) (now off pw ph : Int)
    (collide : Wolf → PipeS → Bool) (g : Game) : Game :=
  gameUpdate pressed restartClicked now off pw ph collide (handleEvents mouseDown now g)

/-- Spec-side definition, for comparison only: the mathematical floor of the
velocity, where vh is twice the velocity (the spec claims the physics step
adds floor(velocity); the source adds the Python truncation int(velocity)). -/
def velocityFloor (vh : Int) : Int := Int.ediv vh 2

-- Concrete states used by witnesses and counterexamples.

/-- Initial game state as built by Game.__init__ (wolf image height taken as
the 35-pixel placeholder; the claims do not depend on its value). -/
def g0 : Game :=
  { state := GameState.MENU
    score := 0
    ground_scroll := 0
    last_pipe_time := 0
    pipes := []
    wolf := spawnWolf 35
    pipe_passed := false
    music_playing := false
    music_paused := false }

/-- A pipe whose right edge (96) is just left of the wolf centerx (100). -/
def pipeA : PipeS := { x := 16, top := 200, w := 80, h := 400, scored := false }

/-- The partner pipe of pipeA (same x, hence same centerx). -/
def pipeB : PipeS := { x := 16, top := 750, w := 80, h := 400, scored := false }

/-- Playing state in which the wolf has just crossed the pipeA/pipeB pair. -/
def gScore : Game :=
  { g0 with state := GameState.PLAYING, pipes := [pipeA, pipeB], pipe_passed := true }

/-- Wolf one physics step after a jump (vh = -20, i.e. velocity -10), well
above the ground. -/
def wolfC3 : Wolf := { spawnWolf 35 with y := 100, vh := -20 }

/-- Wolf whose bottom edge is exactly on the ground line (733 + 35 = 768). -/
def wolfAt : Wolf := { spawnWolf 35 with y := 733 }

/-- Wolf whose bottom edge is one pixel above the ground line. -/
def wolfAbove : Wolf := { spawnWolf 35 with y := 732 }

/-- Wolf touching the ground (bottom 775 ≥ 768), used for the same-tick
collision-then-score scenario. -/
def wolfGround : Wolf := { spawnWolf 35 with y := 740 }

/-- Pipe pair one tick before it coincides with pipeA/pipeB. -/
def pipeA0 : PipeS := { x := 20, top := 200, w := 80, h := 400, scored := false }

def pipeB0 : PipeS := { x := 20, top := 750, w := 80, h := 400, scored := false }

/-- Playing state where, on the next tick, the ground collision fires and the
score condition holds simultaneously. -/
def gC10 : Game :=
  { g0 with state := GameState.PLAYING
            pipes := [pipeA0, pipeB0]
            wolf := wolfGround
            pipe_passed := true }

/-- Game-over state holding one pipe, used against the freeze clause. -/
def gGO : Game := { g0 with state := GameState.GAME_OVER, pipes := [pipeA] }

-- Helper lemmas shared by several claims.

theorem applyPhysics_is_clicked (w : Wolf) : (applyPhysics w).is_clicked = w.is_clicked := by
  unfold applyPhysics; dsimp only; split <;> rfl

theorem applyPhysics_vh (w : Wolf) :
    (applyPhysics w).vh = min (w.vh + GRAVITY_HALVES) MAX_FALL_SPEED_HALVES := by
  unfold applyPhysics; dsimp only; split <;> rfl

theorem animate_is_clicked (w : Wolf) : (animate w).is_clicked = w.is_clicked := by
  unfold animate; dsimp only; split <;> rfl

theorem animate_vh (w : Wolf) : (animate w).vh = w.vh := by
  unfold animate; dsimp only; split <;> rfl

theorem handleInput_is_clicked (pressed : Bool) (w : Wolf) :
    (handleInput pressed w).1.is_clicked = pressed := by
  cases pressed <;> cases hc : w.is_clicked <;> simp [handleInput, hc]

theorem handleInput_jumped (pressed : Bool) (w : Wolf) :
    (handleInput pressed w).2 = (pressed && !w.is_clicked) := by
  cases pressed <;> cases hc : w.is_clicked <;> simp [handleInput, hc]

theorem handleInput_vh (pressed : Bool) (w : Wolf) :
    (handleInput pressed w).1.vh =
      if pressed && !w.is_clicked then JUMP_STRENGTH_HALVES else w.vh := by
  cases pressed <;> cases hc : w.is_clicked <;> simp [handleInput, hc]

theorem wolfUpdate_playing_fst (pressed : Bool) (w : Wolf) :
    (wolfUpdate .PLAYING pressed w).1 = animate (handleInput pressed (applyPhysics w)).1 := rfl

theorem wolfUpdate_playing_jumped (pressed : Bool) (w : Wolf) :
    (wolfUpdate .PLAYING pressed w).2 = (pressed && !w.is_clicked) := by
  show (handleInput pressed (applyPhysics w)).2 = (pressed && !w.is_clicked)
  rw [handleInput_jumped, applyPhysics_is_clicked]

theorem wolfUpdate_playing_is_clicked (pressed : Bool) (w : Wolf) :
    (wolfUpdate .PLAYING pressed w).1.is_clicked = pressed := by
  rw [wolfUpdate_playing_fst, animate_is_clicked, handleInput_is_clicked]

-- Claim theorems.

/-- Claim C3, amended: on every Playing tick, when the character's bottom edge
is strictly above the ground line its y position increases by the Python
truncation toward zero of the post-gravity (clamped) velocity, not the
mathematical floor; when the bottom edge is at or below the ground line the
physics step leaves y unchanged. -/
theorem physics_step_vertical (w : Wolf) :
    (applyPhysics w).vh = min (w.vh + GRAVITY_HALVES) MAX_FALL_SPEED_HALVES ∧
    (w.y + w.height < groundLine →
      (applyPhysics w).y =
        w.y + Int.tdiv (min (w.vh + GRAVITY_HALVES) MAX_FALL_SPEED_HALVES) 2) ∧
    (groundLine ≤ w.y + w.height → (applyPhysics w).y = w.y) := by
  refine ⟨applyPhysics_vh w, ?_, ?_⟩
  · intro h
    unfold applyPhysics
    dsimp only
    rw [if_pos h]
  · intro h
    unfold applyPhysics
    dsimp only
    rw [if_neg (by omega)]

theorem physics_step_vertical_witness :
    (applyPhysics wolfC3).y =
      wolfC3.y + Int.tdiv (min (wolfC3.vh + GRAVITY_HALVES) MAX_FALL_SPEED_HALVES) 2 :=
  (physics_step_vertical wolfC3).2.1 (by decide)

/-- Claim C3, counterexample: one tick after a jump the velocity is -9.5
(vh = -19); the code moves y by int(-9.5) = -9 (here: 100 to 91), while the
claimed mathematical floor of the velocity is -10 (which would give 90). -/
theorem physics_step_floor_cex :
    (applyPhysics wolfC3).y = 91 ∧
    wolfC3.y + velocityFloor (min (wolfC3.vh + GRAVITY_HALVES) MAX_FALL_SPEED_HALVES) = 90 ∧
    (applyPhysics wolfC3).y ≠
      wolfC3.y + velocityFloor (min (wolfC3.vh + GRAVITY_HALVES) MAX_FALL_SPEED_HALVES) := by
  decide

/-- Claim C5: while Playing, a jump (impulse JUMP_STRENGTH and jumped = true)
happens exactly on the rising edge of the input: jumped equals
(pressed and not previously-pressed), the stored flag always ends equal to the
current sample, a held input never re-triggers, and across two consecutive
Playing ticks the second tick jumps iff pressed now and not pressed on the
previous tick. -/
theorem jump_edge_detection (pressed : Bool) (w : Wolf) :
    ((handleInput pressed w).2 = (pressed && !w.is_clicked)) ∧
    ((handleInput pressed w).1.is_clicked = pressed) ∧
    (pressed = true → w.is_clicked = false →
      (handleInput pressed w).1.vh = JUMP_STRENGTH_HALVES ∧
        (handleInput pressed w).2 = true) ∧
    (pressed = true → w.is_clicked = true → handleInput pressed w = (w, false)) ∧
    (∀ p0 : Bool,
      (wolfUpdate .PLAYING pressed (wolfUpdate .PLAYING p0 w).1).2 = (pressed && !p0)) := by
  refine ⟨handleInput_jumped pressed w, handleInput_is_clicked pressed w, ?_, ?_, ?_⟩
  · intro hp hc
    subst hp
    simp [handleInput, hc, handleInput_jumped]
  · intro hp hc
    subst hp
    simp [handleInput, hc]
  · intro p0
    rw [wolfUpdate_playing_jumped, wolfUpdate_playing_is_clicked]

theorem jump_edge_detection_witness :
    (handleInput true (spawnWolf 35)).1.vh = JUMP_STRENGTH_HALVES ∧
      (handleInput true (spawnWolf 35)).2 = true :=
  (jump_edge_detection true (spawnWolf 35)).2.2.1 rfl rfl

/-- Claim C6: for every Playing tick, the velocity immediately after the
physics update is at most MAX_FALL_SPEED, the bound still holds at the end of
the whole character update, and when a jump fires the impulse only lowers the
velocity below its post-physics value (under the run invariant that the
velocity never sits below the jump impulse). -/
theorem velocity_clamp (pressed : Bool) (w : Wolf) (h : JUMP_STRENGTH_HALVES ≤ w.vh) :
    (applyPhysics w).vh ≤ MAX_FALL_SPEED_HALVES ∧
    (wolfUpdate .PLAYING pressed w).1.vh ≤ MAX_FALL_SPEED_HALVES ∧
    ((wolfUpdate .PLAYING pressed w).2 = true →
      (wolfUpdate .PLAYING pressed w).1.vh ≤ (applyPhysics w).vh) := by
  have hvh : (wolfUpdate .PLAYING pressed w).1.vh =
      if pressed && !w.is_clicked then JUMP_STRENGTH_HALVES
      else min (w.vh + GRAVITY_HALVES) MAX_FALL_SPEED_HALVES := by
    rw [wolfUpdate_playing_fst, animate_vh, handleInput_vh, applyPhysics_is_clicked,
      applyPhysics_vh]
  refine ⟨?_, ?_, ?_⟩
  · rw [applyPhysics_vh]
    exact min_le_right _ _
  · rw [hvh]
    split
    · simp [JUMP_STRENGTH_HALVES, MAX_FALL_SPEED_HALVES]
    · exact min_le_right _ _
  · intro hj
    rw [wolfUpdate_playing_jumped] at hj
    rw [hvh, if_pos hj, applyPhysics_vh]
    revert h
    simp [JUMP_STRENGTH_HALVES, GRAVITY_HALVES, MAX_FALL_SPEED_HALVES]
    omega

theorem velocity_clamp_witness :
    (applyPhysics (spawnWolf 35)).vh ≤ MAX_FALL_SPEED_HALVES :=
  (velocity_clamp true (spawnWolf 35) (by decide)).1

-- Game-level helper lemmas.

theorem stopMusic_fields (g : Game) :
    (stopMusic g).state = g.state ∧ (stopMusic g).score = g.score ∧
    (stopMusic g).pipes = g.pipes ∧ (stopMusic g).wolf = g.wolf ∧
    (stopMusic g).pipe_passed = g.pipe_passed := by
  unfold stopMusic; split <;> exact ⟨rfl, rfl, rfl, rfl, rfl⟩

theorem generatePipes_passive (now off pw ph : Int) (g : Game) :
    (generatePipes now off pw ph g).state = g.state ∧
    (generatePipes now off pw ph g).score = g.score ∧
    (generatePipes now off pw ph g).pipe_passed = g.pipe_passed ∧
    (generatePipes now off pw ph g).wolf = g.wolf := by
  unfold generatePipes; split <;> exact ⟨rfl, rfl, rfl, rfl⟩

theorem updateGroundScroll_passive (g : Game) :
    (updateGroundScroll g).state = g.state ∧
    (updateGroundScroll g).score = g.score ∧
    (updateGroundScroll g).pipe_passed = g.pipe_passed ∧
    (updateGroundScroll g).pipes = g.pipes ∧
    (updateGroundScroll g).wolf = g.wolf := by
  unfold updateGroundScroll; dsimp only; split <;> exact ⟨rfl, rfl, rfl, rfl, rfl⟩

theorem prePhase_passive (pressed : Bool) (now off pw ph : Int) (g : Game) :
    (prePhase pressed now off pw ph g).state = g.state ∧
    (prePhase pressed now off pw ph g).score = g.score ∧
    (prePhase pressed now off pw ph g).pipe_passed = g.pipe_passed := by
  unfold prePhase
  refine ⟨?_, ?_, ?_⟩
  · rw [(updateGroundScroll_passive _).1, (generatePipes_passive _ _ _ _ _).1]
  · rw [(updateGroundScroll_passive _).2.1, (generatePipes_passive _ _ _ _ _).2.1]
  · rw [(updateGroundScroll_passive _).2.2.1, (generatePipes_passive _ _ _ _ _).2.2.1]

theorem checkCollisions_cases (c : Wolf → PipeS → Bool) (g : Game) :
    checkCollisions c g = stopMusic { g with state := GameState.GAME_OVER } ∨
      checkCollisions c g = g := by
  unfold checkCollisions
  split
  · exact Or.inl rfl
  · split
    · exact Or.inl rfl
    · exact Or.inr rfl

theorem checkCollisions_fields (c : Wolf → PipeS → Bool) (g : Game) :
    (checkCollisions c g).score = g.score ∧ (checkCollisions c g).pipes = g.pipes ∧
    (checkCollisions c g).wolf = g.wolf ∧
    (checkCollisions c g).pipe_passed = g.pipe_passed := by
  rcases checkCollisions_cases c g with h | h <;> rw [h]
  · exact ⟨(stopMusic_fields _).2.1, (stopMusic_fields _).2.2.1,
      (stopMusic_fields _).2.2.2.1, (stopMusic_fields _).2.2.2.2⟩
  · exact ⟨rfl, rfl, rfl, rfl⟩

theorem checkCollisions_gameover (c : Wolf → PipeS → Bool) (g : Game)
    (hst : g.state = GameState.PLAYING) :
    ((checkCollisions c g).state = GameState.GAME_OVER ↔
      (g.pipes.any (fun p => c g.wolf p) = true ∨ g.wolf.y < 0 ∨
        groundLine ≤ g.wolf.y + g.wolf.height)) := by
  unfold checkCollisions
  split
  · rename_i hany
    simp [(stopMusic_fields _).1, hany]
  · rename_i hany
    split
    · rename_i hb
      simp [(stopMusic_fields _).1, hany, hb]
    · rename_i hb
      rw [hst]
      constructor
      · intro hcontra
        exact absurd hcontra (by decide)
      · intro hcontra
        rcases hcontra with h | h
        · exact absurd h hany
        · exact absurd h hb

theorem updateScore_state (g : Game) : (updateScore g).state = g.state := by
  unfold updateScore
  cases minByCenterx g.pipes
  · rfl
  · dsimp only
    repeat' split
    all_goals rfl

/-- Claim C4: on a Playing tick, the state flips to GameOver exactly when the
pixel-mask oracle reports an overlap with some active pipe, the character's
top edge is negative, or its bottom edge is at or past the ground line; it
does so both at the _check_collisions step and through the whole Playing
update, and concretely: a bottom edge exactly on the ground line triggers it
while one pixel above does not. -/
theorem boundary_collision (pressed : Bool) (now off pw ph : Int)
    (collide : Wolf → PipeS → Bool) (g : Game) :
    ((checkCollisions collide { g with state := GameState.PLAYING }).state =
        GameState.GAME_OVER ↔
      (g.pipes.any (fun p => collide g.wolf p) = true ∨ g.wolf.top < 0 ∨
        groundLine ≤ g.wolf.bottom)) ∧
    ((updatePlaying pressed now off pw ph collide
          { g with state := GameState.PLAYING }).state = GameState.GAME_OVER ↔
      ((prePhase pressed now off pw ph { g with state := GameState.PLAYING }).pipes.any
          (fun p =>
            collide (prePhase pressed now off pw ph
              { g with state := GameState.PLAYING }).wolf p) = true ∨
        (prePhase pressed now off pw ph { g with state := GameState.PLAYING }).wolf.top < 0 ∨
        groundLine ≤
          (prePhase pressed now off pw ph { g with state := GameState.PLAYING }).wolf.bottom)) ∧
    (checkCollisions (fun _ _ => false)
      { g0 with state := GameState.PLAYING, wolf := wolfAt }).state = GameState.GAME_OVER ∧
    (checkCollisions (fun _ _ => false)
      { g0 with state := GameState.PLAYING, wolf := wolfAbove }).state =
        GameState.PLAYING := by
  refine ⟨?_, ?_, by decide, by decide⟩
  · exact checkCollisions_gameover collide { g with state := GameState.PLAYING } rfl
  · show (updateScore (checkCollisions collide _)).state = GameState.GAME_OVER ↔ _
    rw [updateScore_state]
    exact checkCollisions_gameover collide _
      ((prePhase_passive pressed now off pw ph { g with state := GameState.PLAYING }).1)

/-- Claim C7: a spawn appends exactly a top pipe and a bottom pipe, both with
left edge at the spawn x (the screen width); for an offset in the randint
range [-100, 100], the pair center is SCREEN_HEIGHT // 2 + offset, the top
pipe's bottom edge sits at center - PIPE_GAP // 2, the bottom pipe's top edge
at center + PIPE_GAP // 2, and the two are separated by exactly PIPE_GAP. -/
theorem pair_geometry (off pw ph : Int) (_h1 : -100 ≤ off) (_h2 : off ≤ 100)
    (now : Int) (g : Game) (hs : PIPE_FREQUENCY < now - g.last_pipe_time) :
    (generatePipes now off pw ph g).pipes =
      g.pipes ++ [spawnTopPipe off pw ph, spawnBottomPipe off pw ph] ∧
    (spawnTopPipe off pw ph).left = SCREEN_WIDTH ∧
    (spawnBottomPipe off pw ph).left = SCREEN_WIDTH ∧
    spawnCenterY off = Int.ediv SCREEN_HEIGHT 2 + off ∧
    (spawnTopPipe off pw ph).bottom = spawnCenterY off - Int.ediv PIPE_GAP 2 ∧
    (spawnBottomPipe off pw ph).top = spawnCenterY off + Int.ediv PIPE_GAP 2 ∧
    (spawnBottomPipe off pw ph).top - (spawnTopPipe off pw ph).bottom = PIPE_GAP := by
  refine ⟨?_, rfl, rfl, rfl, ?_, ?_, ?_⟩
  · unfold generatePipes
    rw [if_pos hs]
  · simp [spawnTopPipe, mkPipe, PipeS.bottom]
  · simp [spawnBottomPipe, mkPipe]
  · have h75 : Int.ediv (150 : Int) 2 = 75 := by decide
    simp [spawnTopPipe, spawnBottomPipe, mkPipe, PipeS.bottom, PIPE_GAP, h75]

theorem pair_geometry_witness :
    (generatePipes 2000 0 80 400 g0).pipes =
      g0.pipes ++ [spawnTopPipe 0 80 400, spawnBottomPipe 0 80 400] :=
  (pair_geometry 0 80 400 (by decide) (by decide) 2000 g0 (by decide)).1

/-- Claim C8: the restart action taken in the GameOver state yields score 0,
no pipes, the character back at its spawn state (position (100,
SCREEN_HEIGHT // 2), zero velocity), ground scroll 0, both audio flags
cleared, and state MENU. -/
theorem restart_postcondition (g : Game) :
    (updateGameOver true { g with state := GameState.GAME_OVER }).score = 0 ∧
    (updateGameOver true { g with state := GameState.GAME_OVER }).pipes = [] ∧
    (updateGameOver true { g with state := GameState.GAME_OVER }).wolf =
      spawnWolf g.wolf.height ∧
    (updateGameOver true { g with state := GameState.GAME_OVER }).wolf.vh = 0 ∧
    (updateGameOver true { g with state := GameState.GAME_OVER }).ground_scroll = 0 ∧
    (updateGameOver true { g with state := GameState.GAME_OVER }).music_playing = false ∧
    (updateGameOver true { g with state := GameState.GAME_OVER }).music_paused = false ∧
    (updateGameOver true { g with state := GameState.GAME_OVER }).state =
      GameState.MENU :=
  ⟨rfl, rfl, rfl, rfl, rfl, rfl, rfl, rfl⟩

-- Characterization of one _update_score step (shared by C2 and C10).

theorem updateScore_eq (g : Game) (first : PipeS)
    (hf : minByCenterx g.pipes = some first) :
    updateScore g =
      (if (if first.left < g.wolf.centerx ∧ g.wolf.centerx < first.right ∧
              g.pipe_passed = false then true else g.pipe_passed) = true ∧
            first.right < g.wolf.centerx then
        if first.scored = false then
          { g with score := g.score + 1, pipes := markScored first.centerx g.pipes,
                   pipe_passed := false }
        else { g with pipe_passed := false }
      else
        { g with pipe_passed :=
            if first.left < g.wolf.centerx ∧ g.wolf.centerx < first.right ∧
                g.pipe_passed = false then true else g.pipe_passed }) := by
  unfold updateScore
  rw [hf]

theorem updateScore_crossing (g : Game) (first : PipeS)
    (hf : minByCenterx g.pipes = some first) (hp : g.pipe_passed = true)
    (hr : first.right < g.wolf.centerx) (hs : first.scored = false) :
    (updateScore g).score = g.score + 1 ∧ (updateScore g).pipe_passed = false ∧
    (updateScore g).pipes = markScored first.centerx g.pipes := by
  rw [updateScore_eq g first hf]
  have hpassed : (if first.left < g.wolf.centerx ∧ g.wolf.centerx < first.right ∧
      g.pipe_passed = false then true else g.pipe_passed) = true := by
    split
    · rfl
    · exact hp
  rw [if_pos ⟨hpassed, hr⟩, if_pos hs]
  exact ⟨rfl, rfl, rfl⟩

theorem updateScore_between (g : Game) (first : PipeS)
    (hf : minByCenterx g.pipes = some first) (hl : first.left < g.wolf.centerx)
    (hr : g.wolf.centerx < first.right) :
    (updateScore g).pipe_passed = true ∧ (updateScore g).score = g.score ∧
    (updateScore g).pipes = g.pipes := by
  rw [updateScore_eq g first hf]
  have hno : ¬ ((if first.left < g.wolf.centerx ∧ g.wolf.centerx < first.right ∧
      g.pipe_passed = false then true else g.pipe_passed) = true ∧
      first.right < g.wolf.centerx) := by
    rintro ⟨-, hc⟩
    omega
  rw [if_neg hno]
  refine ⟨?_, rfl, rfl⟩
  split
  · rfl
  · rename_i hcond
    cases hb : g.pipe_passed
    · exact absurd ⟨hl, hr, hb⟩ hcond
    · rfl

theorem updateScore_already_scored (g : Game) (first : PipeS)
    (hf : minByCenterx g.pipes = some first) (hs : first.scored = true) :
    (updateScore g).score = g.score := by
  rw [updateScore_eq g first hf]
  repeat' split
  all_goals first
    | rfl
    | (rename_i h2; simp [hs] at h2)

theorem updateScore_keep_flag (g : Game) (first : PipeS)
    (hf : minByCenterx g.pipes = some first) (hp : g.pipe_passed = true)
    (hnr : ¬ first.right < g.wolf.centerx) :
    (updateScore g).pipe_passed = true := by
  rw [updateScore_eq g first hf]
  rw [if_neg (by rintro ⟨-, hc⟩; exact hnr hc)]
  split
  · rfl
  · exact hp

/-- Claim C2: with `first` the active pipe of smallest centerx: while the
character's x-center is strictly between its edges the traversal flag is set
and nothing else changes; on a tick with the flag set and the x-center past
the right edge of an unscored first pipe, the score rises by exactly 1, every
pipe within 10 px of its centerx (the whole pair, itself included) is marked
scored and the flag clears; once the first pipe is marked scored the score
never rises again for it; and the flag persists until the crossing tick. -/
theorem scoring_exactly_once (g : Game) (first : PipeS)
    (hf : minByCenterx g.pipes = some first) :
    (first.left < g.wolf.centerx → g.wolf.centerx < first.right →
      (updateScore g).pipe_passed = true ∧ (updateScore g).score = g.score ∧
        (updateScore g).pipes = g.pipes) ∧
    (g.pipe_passed = true → first.right < g.wolf.centerx → first.scored = false →
      (updateScore g).score = g.score + 1 ∧ (updateScore g).pipe_passed = false ∧
        (updateScore g).pipes = markScored first.centerx g.pipes ∧
        (∀ p ∈ g.pipes, (p.centerx - first.centerx).natAbs < 10 →
          ({ p with scored := true } : PipeS) ∈ (updateScore g).pipes)) ∧
    (first.scored = true → (updateScore g).score = g.score) ∧
    (g.pipe_passed = true → ¬ first.right < g.wolf.centerx →
      (updateScore g).pipe_passed = true) := by
  refine ⟨fun hl hr => updateScore_between g first hf hl hr, ?_,
    fun hs => updateScore_already_scored g first hf hs,
    fun hp hnr => updateScore_keep_flag g first hf hp hnr⟩
  intro hp hr hs
  have h := updateScore_crossing g first hf hp hr hs
  refine ⟨h.1, h.2.1, h.2.2, ?_⟩
  intro p hpmem htol
  rw [h.2.2]
  unfold markScored
  have heq : ({ p with scored := true } : PipeS) =
      (fun q => if (q.centerx - first.centerx).natAbs < 10 then
        { q with scored := true } else q) p := by
    dsimp only
    rw [if_pos htol]
  rw [heq]
  exact List.mem_map_of_mem _ hpmem

theorem scoring_exactly_once_witness :
    (updateScore gScore).score = gScore.score + 1 ∧
    (updateScore gScore).pipe_passed = false := by
  have h := (scoring_exactly_once gScore pipeA (by decide)).2.1 rfl (by decide) rfl
  exact ⟨h.1, h.2.1⟩

theorem startMusic_passive (g : Game) :
    (startMusic g).state = g.state ∧ (startMusic g).last_pipe_time = g.last_pipe_time ∧
    (startMusic g).pipes = g.pipes := by
  unfold startMusic
  split
  · exact ⟨rfl, rfl, rfl⟩
  · split <;> exact ⟨rfl, rfl, rfl⟩

/-- Claim C9, counterexample: a tick that starts in the GameOver state with
the restart button clicked removes obstacles (the pipe set is cleared), so
"while the state is Menu or GameOver ... no obstacle ... is removed" fails as
stated. -/
theorem state_machine_freeze_cex :
    gGO.state = GameState.GAME_OVER ∧ gGO.pipes.length = 1 ∧
    (gameUpdate false true 0 0 80 400 (fun _ _ => false) gGO).pipes.length = 0 := by
  decide

/-- Claim C9, amended: the only state assignments are Menu to Playing on a
mouse press in handle_events, Playing to Playing-or-GameOver in the playing
update, and GameOver to Menu on restart; a tick that starts in Menu or
GameOver and fires no transition leaves the whole game state unchanged (no
physics, no obstacle movement, removal or spawning) — except that the restart
transition itself clears all obstacles as part of the reset, and a Menu tick
whose press fires the transition runs the Playing update in that same tick. -/
theorem state_machine_transitions (pressed mouseDown restartClicked : Bool)
    (now off pw ph : Int) (collide : Wolf → PipeS → Bool) (g : Game) :
    ((handleEvents mouseDown now g).state =
      if mouseDown = true ∧ g.state = GameState.MENU then GameState.PLAYING
      else g.state) ∧
    (handleEvents false now g = g) ∧
    (gameUpdate pressed restartClicked now off pw ph collide
        { g with state := GameState.MENU } = { g with state := GameState.MENU }) ∧
    ((gameUpdate pressed restartClicked now off pw ph collide
        { g with state := GameState.PLAYING }).state = GameState.PLAYING ∨
      (gameUpdate pressed restartClicked now off pw ph collide
        { g with state := GameState.PLAYING }).state = GameState.GAME_OVER) ∧
    (gameUpdate pressed false now off pw ph collide
        { g with state := GameState.GAME_OVER } = { g with state := GameState.GAME_OVER }) ∧
    (gameUpdate pressed true now off pw ph collide { g with state := GameState.GAME_OVER } =
      resetGame { g with state := GameState.GAME_OVER }) ∧
    ((resetGame { g with state := GameState.GAME_OVER }).state = GameState.MENU) := by
  refine ⟨?_, ?_, rfl, ?_, rfl, rfl, rfl⟩
  · unfold handleEvents
    split
    · exact (startMusic_passive _).1
    · rfl
  · unfold handleEvents
    rw [if_neg (by rintro ⟨h, -⟩; cases h)]
  · show (updateScore (checkCollisions collide
        (prePhase pressed now off pw ph { g with state := GameState.PLAYING }))).state =
          GameState.PLAYING ∨
      (updateScore (checkCollisions collide
        (prePhase pressed now off pw ph { g with state := GameState.PLAYING }))).state =
          GameState.GAME_OVER
    rw [updateScore_state]
    rcases checkCollisions_cases collide
        (prePhase pressed now off pw ph { g with state := GameState.PLAYING }) with h | h
    · right
      rw [h, (stopMusic_fields _).1]
    · left
      rw [h, (prePhase_passive pressed now off pw ph { g with state := GameState.PLAYING }).1]

/-- Claim C1, counterexample: the Menu-to-Playing transition at time 0 primes
last_pipe_time to -PIPE_FREQUENCY, so a pair already spawns at the very next
tick (here at 16 ms), before one full 1500 ms interval has elapsed from the
transition. -/
theorem spawn_timing_cex :
    (handleEvents true 0 g0).last_pipe_time = -1500 ∧
    (generatePipes 16 0 80 400 (handleEvents true 0 g0)).pipes.length = 2 ∧
    ((16 : Int) - 0 < PIPE_FREQUENCY) := by
  decide

/-- Claim C1, amended: on the Menu-to-Playing transition at time t0 the
spawner clock is primed to t0 - PIPE_FREQUENCY, so a pair spawns exactly on
the first update tick whose time is strictly greater than t0 (immediately,
not after one full interval); in general a spawn happens on a tick iff more
than PIPE_FREQUENCY ms passed since last_pipe_time, and it records the tick's
own timestamp (so spawn times track actual tick times, not exact multiples of
the interval from Playing-start). -/
theorem spawn_timing (g : Game) (t0 now off pw ph : Int) :
    ((handleEvents true t0 { g with state := GameState.MENU }).last_pipe_time =
      t0 - PIPE_FREQUENCY) ∧
    ((generatePipes now off pw ph
        { g with last_pipe_time := t0 - PIPE_FREQUENCY }).pipes.length =
        g.pipes.length + 2 ↔ t0 < now) ∧
    ((generatePipes now off pw ph g).pipes.length = g.pipes.length + 2 ↔
      PIPE_FREQUENCY < now - g.last_pipe_time) ∧
    (PIPE_FREQUENCY < now - g.last_pipe_time →
      (generatePipes now off pw ph g).last_pipe_time = now) ∧
    (¬ PIPE_FREQUENCY < now - g.last_pipe_time → generatePipes now off pw ph g = g) := by
  refine ⟨?_, ?_, ?_, ?_, ?_⟩
  · unfold handleEvents
    rw [if_pos ⟨rfl, rfl⟩]
    exact (startMusic_passive _).2.1
  · unfold generatePipes
    dsimp only
    split
    · rename_i h
      simp only [List.length_append, List.length_cons, List.length_nil]
      constructor
      · intro _
        omega
      · intro _
        trivial
    · rename_i h
      constructor
      · intro habs
        simp at habs
      · intro hlt
        exact absurd (by omega) h
  · unfold generatePipes
    split
    · rename_i h
      simp only [List.length_append, List.length_cons, List.length_nil]
      exact ⟨fun _ => h, fun _ => trivial⟩
    · rename_i h
      constructor
      · intro habs
        simp at habs
      · intro hlt
        exact absurd hlt h
  · intro h
    unfold generatePipes
    rw [if_pos h]
  · intro h
    unfold generatePipes
    rw [if_neg h]

theorem spawn_timing_witness :
    (generatePipes 2000 5 80 400 g0).last_pipe_time = 2000 :=
  (spawn_timing g0 0 2000 5 80 400).2.2.2.1 (by decide)

/-- Claim C10: inside one Playing tick the collision check runs before the
score update and does not abort the tick, so when the collision check flips
the state to GameOver and the crossing condition holds on the same tick, the
tick still ends with state GameOver and the score incremented by 1. -/
theorem same_tick_death_scoring (pressed : Bool) (now off pw ph : Int)
    (collide : Wolf → PipeS → Bool) (g : Game) (first : PipeS)
    (hgo : (checkCollisions collide (prePhase pressed now off pw ph g)).state =
      GameState.GAME_OVER)
    (hf : minByCenterx (prePhase pressed now off pw ph g).pipes = some first)
    (hp : (prePhase pressed now off pw ph g).pipe_passed = true)
    (hr : first.right < (prePhase pressed now off pw ph g).wolf.centerx)
    (hs : first.scored = false) :
    (updatePlaying pressed now off pw ph collide g).state = GameState.GAME_OVER ∧
    (updatePlaying pressed now off pw ph collide g).score = g.score + 1 := by
  have hfields := checkCollisions_fields collide (prePhase pressed now off pw ph g)
  have hf2 : minByCenterx (checkCollisions collide
      (prePhase pressed now off pw ph g)).pipes = some first := by
    rw [hfields.2.1]
    exact hf
  have hp2 : (checkCollisions collide
      (prePhase pressed now off pw ph g)).pipe_passed = true := by
    rw [hfields.2.2.2]
    exact hp
  have hr2 : first.right < (checkCollisions collide
      (prePhase pressed now off pw ph g)).wolf.centerx := by
    rw [hfields.2.2.1]
    exact hr
  have hcross := updateScore_crossing _ first hf2 hp2 hr2 hs
  constructor
  · show (updateScore (checkCollisions collide
        (prePhase pressed now off pw ph g))).state = GameState.GAME_OVER
    rw [updateScore_state]
    exact hgo
  · show (updateScore (checkCollisions collide
        (prePhase pressed now off pw ph g))).score = g.score + 1
    rw [hcross.1, hfields.1, (prePhase_passive pressed now off pw ph g).2.1]

theorem same_tick_death_scoring_witness :
    (updatePlaying false 100 0 80 400 (fun _ _ => false) gC10).state =
        GameState.GAME_OVER ∧
    (updatePlaying false 100 0 80 400 (fun _ _ => false) gC10).score =
      gC10.score + 1 :=
  same_tick_death_scoring false 100 0 80 400 (fun _ _ => false) gC10 pipeA
    (by decide) (by decide) (by decide) (by decide) rfl

end FlappyWolf
